import Mathlib

/-!
Shallow embedding of the request/cache/normalization layer of the
`hedera-defi-sdk` TypeScript repository
(`src/hedera-defi-js/src/clients/HederaDeFi.ts` and the utility module
`src/unnamed/part_001`), together with theorems settling the frozen claims
about it.

Modelling conventions:
* JavaScript numbers are modelled as exact rationals (`ℚ`); a value that can
  be `NaN` is modelled as `Option ℚ` (or `Option Int`) with `none` standing
  for `NaN`.  `JsFloat` additionally distinguishes the infinities produced by
  `parseFloat`.
* JavaScript `Date` values are modelled by their millisecond time value
  (`Int`); `Date.now()` is the `now` field of the ambient `Env`.
* `undefined`/missing JSON fields are `Option.none`; the empty-object
  sentinel `\x7b\x7d` returned by the request executors on failure is the
  `none` case of `Option Payload` (reading any field of it yields
  `undefined`, exactly as in JavaScript).
* The transport is a function `String → Option Payload`: `some` models an
  HTTP 200 response with a parsed JSON object body, `none` models every
  failure the code folds into the empty sentinel (timeout, connection error,
  non-200 status, rate limiting).  Response bodies are modelled as parsed
  JSON objects, so the `typeof data === "object"` tests in the source are
  always true.
* JavaScript truthiness of `||` chains is modelled field-type by field-type:
  `""`, `0`, `false`, `undefined` and `NaN` are falsy; objects are always
  truthy.
-/

namespace HederaDefi

/-! ## JavaScript primitive models -/

/-- Numeric value of a list of decimal digit characters. -/
def digitsVal (ds : List Char) : Nat :=
  ds.foldl (fun n c => n * 10 + (c.toNat - 48)) 0

/-- Is the character a hexadecimal digit?  Used by the `0x` branch of
`parseInt`. -/
def isHexDigitChar (c : Char) : Bool :=
  c.isDigit || (('a' ≤ c) && (c ≤ 'f')) || (('A' ≤ c) && (c ≤ 'F'))

/-- Numeric value of one hexadecimal digit character. -/
def hexDigitVal (c : Char) : Nat :=
  if c.isDigit then c.toNat - 48
  else if ('a' ≤ c) && (c ≤ 'f') then c.toNat - 87
  else c.toNat - 55

/-- Numeric value of a list of hexadecimal digit characters. -/
def hexVal (ds : List Char) : Nat :=
  ds.foldl (fun n c => n * 16 + hexDigitVal c) 0

/-- Model of JavaScript `parseInt(s)` (radix unspecified): skip leading
whitespace, optional sign, then either a `0x`/`0X` hexadecimal literal or the
longest prefix of decimal digits; `NaN` (here `none`) when no digit is
consumed.  Arithmetic is exact (the double-precision rounding of very large
results is not modelled; every input appearing in the claims is well below
2^53). -/
def jsParseInt (s : String) : Option Int :=
  let cs := s.data.dropWhile Char.isWhitespace
  let res : Bool × List Char :=
    match cs with
    | '-' :: r => (true, r)
    | '+' :: r => (false, r)
    | r => (false, r)
  let neg := res.1
  let body := res.2
  let mag : Option Nat :=
    match body with
    | '0' :: 'x' :: r =>
      let ds := r.takeWhile isHexDigitChar
      if ds.isEmpty then none else some (hexVal ds)
    | '0' :: 'X' :: r =>
      let ds := r.takeWhile isHexDigitChar
      if ds.isEmpty then none else some (hexVal ds)
    | r =>
      let ds := r.takeWhile Char.isDigit
      if ds.isEmpty then none else some (digitsVal ds)
  mag.map (fun n => if neg then -(n : Int) else (n : Int))

/-- Result of JavaScript `parseFloat`: a finite number, an infinity, or
`NaN`. -/
inductive JsFloat where
  | nan : JsFloat
  | inf : JsFloat
  | negInf : JsFloat
  | val (q : ℚ) : JsFloat
  deriving Repr, DecidableEq

/-- Syntactic analysis of a `parseFloat` input: either no numeric prefix
(`nan`), a signed `Infinity` literal, or a finite literal given by its sign,
integer-part digits, fraction-part digits and decimal exponent. -/
inductive FloatSyntax where
  | nan : FloatSyntax
  | inf : FloatSyntax
  | negInf : FloatSyntax
  | finite (neg : Bool) (ip fp : List Char) (e : Int) : FloatSyntax
  deriving Repr, DecidableEq

/-- Syntactic stage of JavaScript `parseFloat(s)`: skip leading whitespace,
optional sign, then the longest prefix that is a decimal literal
(`digits [. digits] [e sign digits]`, or `. digits ...`), or the literal
`Infinity`; `nan` when no numeric prefix exists.  Trailing garbage is
ignored, and an exponent marker not followed by digits is not consumed. -/
def jsParseFloatSyntax (s : String) : FloatSyntax :=
  let cs := s.data.dropWhile Char.isWhitespace
  let res : Bool × List Char :=
    match cs with
    | '-' :: r => (true, r)
    | '+' :: r => (false, r)
    | r => (false, r)
  let neg := res.1
  let body := res.2
  if body.take 8 = "Infinity".data then
    if neg then FloatSyntax.negInf else FloatSyntax.inf
  else
    let ip := body.takeWhile Char.isDigit
    let rest1 := body.dropWhile Char.isDigit
    let fracRes : List Char × List Char :=
      match rest1 with
      | '.' :: r => (r.takeWhile Char.isDigit, r.dropWhile Char.isDigit)
      | _ => ([], rest1)
    let fp := fracRes.1
    let rest2 := fracRes.2
    if ip.isEmpty && fp.isEmpty then FloatSyntax.nan
    else
      let expPart : Int :=
        match rest2 with
        | 'e' :: r =>
          let er : Bool × List Char :=
            match r with
            | '-' :: r2 => (true, r2)
            | '+' :: r2 => (false, r2)
            | r2 => (false, r2)
          let ed := er.2.takeWhile Char.isDigit
          if ed.isEmpty then 0
          else if er.1 then -(digitsVal ed : Int) else (digitsVal ed : Int)
        | 'E' :: r =>
          let er : Bool × List Char :=
            match r with
            | '-' :: r2 => (true, r2)
            | '+' :: r2 => (false, r2)
            | r2 => (false, r2)
          let ed := er.2.takeWhile Char.isDigit
          if ed.isEmpty then 0
          else if er.1 then -(digitsVal ed : Int) else (digitsVal ed : Int)
        | _ => 0
      FloatSyntax.finite neg ip fp expPart

/-- Numeric value of a finite `parseFloat` literal. -/
def floatSyntaxValue (neg : Bool) (ip fp : List Char) (e : Int) : ℚ :=
  let mant : ℚ := (digitsVal ip : ℚ) + (digitsVal fp : ℚ) / (10 : ℚ) ^ fp.length
  let scaled : ℚ :=
    if 0 ≤ e then mant * (10 : ℚ) ^ e.toNat
    else mant / (10 : ℚ) ^ (-e).toNat
  if neg then -scaled else scaled

/-- Model of JavaScript `parseFloat(s)`: the numeric value of the parsed
prefix, `NaN` or an infinity when the prefix says so. -/
def jsParseFloat (s : String) : JsFloat :=
  match jsParseFloatSyntax s with
  | FloatSyntax.nan => JsFloat.nan
  | FloatSyntax.inf => JsFloat.inf
  | FloatSyntax.negInf => JsFloat.negInf
  | FloatSyntax.finite neg ip fp e => JsFloat.val (floatSyntaxValue neg ip fp e)

/-! ## JavaScript `||` (truthiness) helpers -/

/-- `a || b` for string fields: the empty string is falsy. -/
def jsStrOr (a : Option String) (b : String) : String :=
  match a with
  | some s => if s = "" then b else s
  | none => b

/-- `a || b` for numeric fields with a numeric default: `0` is falsy. -/
def jsNumOr (a : Option ℚ) (b : ℚ) : ℚ :=
  match a with
  | some x => if x = 0 then b else x
  | none => b

/-- `a || b` for numeric fields where the fallback may itself be absent
(e.g. `reserve.stable_borrow_apy || reserve.stableBorrowApy`). -/
def jsNumOrOpt (a b : Option ℚ) : Option ℚ :=
  match a with
  | some x => if x = 0 then b else some x
  | none => b

/-- `a || b` for boolean fields with a boolean default: `false` is falsy. -/
def jsBoolOr (a : Option Bool) (b : Bool) : Bool :=
  match a with
  | some true => true
  | _ => b

/-- `a || b` for boolean fields where the fallback may be absent. -/
def jsBoolOrOpt (a b : Option Bool) : Option Bool :=
  match a with
  | some true => some true
  | _ => b

/-- `a || b` for object fields: objects are always truthy. -/
def jsObjOr {α : Type} (a b : Option α) : Option α :=
  match a with
  | some x => some x
  | none => b

/-! ## Utility module (`src/unnamed/part_001`) -/

/-- Truncate a rational toward zero, as JavaScript time-value clipping
does. -/
def ratTrunc (q : ℚ) : Int := q.num / (q.den : Int)

/-- `parseTimestamp` from the utility module: parse a Hedera
nanosecond-timestamp string into a `Date` (here: its millisecond time value).
Returns `none` for an absent or empty input, a `NaN` parse, or a time value
outside the valid `Date` range (±8.64e15 ms). -/
def parseTimestamp (timestamp : Option String) : Option Int :=
  match timestamp with
  | none => none
  | some s =>
    if s = "" then none
    else
      match jsParseInt s with
      | none => none
      | some n =>
        let ms : ℚ := (n : ℚ) / 1000000
        if 8640000000000000 < |ms| then none else some (ratTrunc ms)

/-- `validateAccountId` from the utility module: test against the regular
expression `^0\.0\.\d+$` (the literal characters `0.0.` followed by one or
more decimal digits). -/
def validateAccountId (accountId : String) : Bool :=
  match accountId.data with
  | c1 :: c2 :: c3 :: c4 :: rest =>
    (c1 == '0') && (c2 == '.') && (c3 == '0') && (c4 == '.') &&
      !rest.isEmpty && rest.all Char.isDigit
  | _ => false

/-- `parseUsdValue` from the utility module: return `0` for the empty string
or the literal `"0"`, otherwise strip every `$` and `,` character and apply
`parseFloat`.  (The source wraps the `parseFloat` call in `try/catch`, but
`parseFloat` never throws, so the `catch` branch returning `0` is
unreachable and an unparseable string yields `NaN`.) -/
def parseUsdValue (usdString : String) : JsFloat :=
  if usdString = "" || usdString = "0" then JsFloat.val 0
  else jsParseFloat (String.mk (usdString.data.filter (fun c => !(c = '$' || c = ','))))

/-! ## Raw upstream payloads (parsed JSON bodies)

One structure per endpoint shape that the modelled methods read.  Every field
is `Option`-valued: `none` is JavaScript `undefined`. -/

/-- Raw body of `network/supply` (mirror node, snake_case strings). -/
structure SupplyRaw where
  total_supply : Option String
  released_supply : Option String
  timestamp : Option String
  deriving Repr, DecidableEq

/-- One rate object inside the raw `network/exchangerate` body. -/
structure RateRawEntry where
  cent_equiv : Option ℚ
  hbar_equiv : Option ℚ
  expiration_time : Option String
  deriving Repr, DecidableEq

/-- Raw body of `network/exchangerate`. -/
structure RateRaw where
  current_rate : Option RateRawEntry
  next_rate : Option RateRawEntry
  timestamp : Option String
  deriving Repr, DecidableEq

/-- Raw nested `balance` object of an `accounts/\x7bid\x7d` body. -/
structure AccountBalanceRaw where
  balance : Option String
  timestamp : Option String
  deriving Repr, DecidableEq

/-- Raw body of `accounts/\x7bid\x7d` (mirror node, snake_case).  The `key`
field is passed through opaquely and modelled as a string. -/
structure AccountRaw where
  account : Option String
  aliasVal : Option String
  balance : Option AccountBalanceRaw
  created_timestamp : Option String
  decline_reward : Option Bool
  deleted : Option Bool
  ethereum_nonce : Option Int
  evm_address : Option String
  key : Option String
  max_automatic_token_associations : Option Int
  memo : Option String
  pending_reward : Option Int
  receiver_sig_required : Option Bool
  staked_account_id : Option String
  staked_node_id : Option Int
  stake_period_start : Option String
  deriving Repr, DecidableEq

/-- A nested currency-display object of the Bonzo API.  The client passes
these objects through without normalizing their inner keys, so both the
snake_case and the camelCase display field are kept. -/
structure UsdAmountRaw where
  usd_display : Option String
  usdDisplay : Option String
  deriving Repr, DecidableEq

/-- One raw reserve of the Bonzo `Market` body; each logical field may appear
under its snake_case or its camelCase name. -/
structure BonzoRawReserve where
  symbol : Option String
  name : Option String
  active : Option Bool
  supply_apy : Option ℚ
  supplyApy : Option ℚ
  variable_borrow_apy : Option ℚ
  variableBorrowApy : Option ℚ
  stable_borrow_apy : Option ℚ
  stableBorrowApy : Option ℚ
  utilization_rate : Option ℚ
  utilizationRate : Option ℚ
  available_liquidity : Option UsdAmountRaw
  availableLiquidity : Option UsdAmountRaw
  total_borrowable_liquidity : Option UsdAmountRaw
  totalBorrowableLiquidity : Option UsdAmountRaw
  ltv : Option ℚ
  liquidation_threshold : Option ℚ
  liquidationThreshold : Option ℚ
  liquidation_bonus : Option ℚ
  liquidationBonus : Option ℚ
  variable_borrowing_enabled : Option Bool
  variableBorrowingEnabled : Option Bool
  stable_borrowing_enabled : Option Bool
  stableBorrowingEnabled : Option Bool
  deriving Repr, DecidableEq

/-- Raw body of the Bonzo `Market` endpoint. -/
structure BonzoRawMarket where
  chain_id : Option String
  chainId : Option String
  network_name : Option String
  networkName : Option String
  total_market_supplied : Option UsdAmountRaw
  totalMarketSupplied : Option UsdAmountRaw
  total_market_borrowed : Option UsdAmountRaw
  totalMarketBorrowed : Option UsdAmountRaw
  total_market_liquidity : Option UsdAmountRaw
  totalMarketLiquidity : Option UsdAmountRaw
  total_market_reserve : Option UsdAmountRaw
  totalMarketReserve : Option UsdAmountRaw
  reserves : Option (List BonzoRawReserve)
  timestamp : Option String
  deriving Repr, DecidableEq

/-- A successful (HTTP 200, object body) upstream response, as stored in the
cache and returned by the transports. -/
inductive Payload where
  | supply (d : SupplyRaw) : Payload
  | rate (d : RateRaw) : Payload
  | account (d : AccountRaw) : Payload
  | bonzo (d : BonzoRawMarket) : Payload
  deriving Repr, DecidableEq

/-! ## Client state, environment, cache store -/

/-- One cache entry: the cached payload and the `Date.now()` at which it was
stored (`CacheEntry` in `src/types`). -/
structure CacheEntry where
  data : Payload
  timestamp : Int
  deriving Repr, DecidableEq

/-- Ambient environment of one method call: construction-time configuration
(`cacheTtl`, in seconds, as in the source) plus the ambient clock and the
three upstream transports.  `nowIso` abstracts `new Date().toISOString()`.
A transport returns `some` for an HTTP 200 response with an object body and
`none` for every failure folded into the empty sentinel. -/
structure Env where
  netMirror : String → Option Payload
  netBonzo : String → Option Payload
  netSaucer : String → Option Payload
  now : Int
  nowIso : String
  cacheTtl : Int

/-- Mutable per-instance state of a `HederaDeFi` client: the request cache
(`this.cache`, a map modelled as an association list with first-hit lookup),
the call-count record (`this.callCounts`, a total function with `0` for
absent keys), and an instrumentation log of the upstream requests actually
issued (used to state the frame claims; the source has no such field). -/
structure ClientState where
  cache : List (String × CacheEntry)
  callCounts : String → Nat
  netRequests : List String

/-- Cache lookup honouring the TTL, exactly as inlined in `request`
(lines 107–112): a hit requires a stored entry with
`now - entry.timestamp < cacheTtl * 1000`; a missing or stale entry is
`none`. -/
def cacheGet (cache : List (String × CacheEntry)) (cacheTtl now : Int)
    (key : String) : Option Payload :=
  match cache.lookup key with
  | some e => if now - e.timestamp < cacheTtl * 1000 then some e.data else none
  | none => none

/-- Cache store, exactly as inlined in `request` (lines 120–123):
`this.cache.set(cacheKey, \x7bdata, timestamp: Date.now()\x7d)`, replacing
any previous entry for the key. -/
def cachePut (cache : List (String × CacheEntry)) (key : String)
    (payload : Payload) (now : Int) : List (String × CacheEntry) :=
  (key, ⟨payload, now⟩) :: cache.filter (fun p => p.1 ≠ key)

/-- `trackCall` (lines 741–746): increment the per-method invocation count
(`this.callCounts[methodName] = (this.callCounts[methodName] || 0) + 1`).
The over-threshold console warning is observability only and not
modelled. -/
def trackCall (counts : String → Nat) (methodName : String) : String → Nat :=
  fun k => if k = methodName then counts methodName + 1 else counts k

/-- `clearCache` (lines 784–787): `this.cache.clear()`. -/
def clearCache (st : ClientState) : ClientState :=
  { st with cache := [] }

/-- `resetCallCounts` (lines 776–779): delete every key of
`this.callCounts`. -/
def resetCallCounts (st : ClientState) : ClientState :=
  { st with callCounts := fun _ => 0 }

/-! ## Request executors -/

/-- Body of the mirror-node `request` method after its empty-path guard
(lines 104–144): build the cache key `path ++ ":" ++ serialized params`,
return a fresh cached payload if present, otherwise issue the network call,
caching a success and returning the empty sentinel (`none`) on failure.
`params` is the already-serialized `JSON.stringify(params || \x7b\x7d)`
string. -/
def requestRun (env : Env) (st : ClientState) (path params : String) :
    Option Payload × ClientState :=
  match cacheGet st.cache env.cacheTtl env.now (path ++ ":" ++ params) with
  | some d => (some d, st)
  | none =>
    match env.netMirror path with
    | some payload =>
      (some payload,
        { st with
          netRequests := st.netRequests ++ [path]
          cache := cachePut st.cache (path ++ ":" ++ params) payload env.now })
    | none => (none, { st with netRequests := st.netRequests ++ [path] })

/-- The mirror-node `request` method (lines 99–145): throws
`"Path cannot be empty"` on a falsy path, otherwise runs `requestRun`. -/
def request (env : Env) (st : ClientState) (path params : String) :
    Except String (Option Payload × ClientState) :=
  if path = "" then Except.error "Path cannot be empty"
  else Except.ok (requestRun env st path params)

/-- `bonzoRequest` (lines 219–283): same cache/fallback logic with cache key
`"bonzo:" ++ path` and the Bonzo transport; it has no empty-path guard and
never throws.  The browser-emulation headers do not influence the modelled
behaviour. -/
def bonzoRequest (env : Env) (st : ClientState) (path : String) :
    Option Payload × ClientState :=
  match cacheGet st.cache env.cacheTtl env.now ("bonzo:" ++ path) with
  | some d => (some d, st)
  | none =>
    match env.netBonzo path with
    | some payload =>
      (some payload,
        { st with
          netRequests := st.netRequests ++ ["bonzo:" ++ path]
          cache := cachePut st.cache ("bonzo:" ++ path) payload env.now })
    | none => (none, { st with netRequests := st.netRequests ++ ["bonzo:" ++ path] })

/-! ## Normalized data model (`src/types`) -/

/-- `NetworkSupply`: display-unit supplies (JS numbers, `none` = `NaN`) and
a `Date` timestamp (millisecond time value). -/
structure NetworkSupply where
  totalSupply : Option ℚ
  circulatingSupply : Option ℚ
  timestamp : Int
  deriving Repr, DecidableEq

/-- One normalized rate of `NetworkExchangeRate`. -/
structure RateInfo where
  centEquiv : ℚ
  hbarEquiv : ℚ
  expirationTime : String
  deriving Repr, DecidableEq

/-- `NetworkExchangeRate`. -/
structure NetworkExchangeRate where
  currentRate : RateInfo
  nextRate : Option RateInfo
  timestamp : Int
  deriving Repr, DecidableEq

/-- Normalized nested balance of `AccountInfo` (`none` = `NaN`). -/
structure AccountBalance where
  balance : Option Int
  timestamp : String
  deriving Repr, DecidableEq

/-- `AccountInfo` as produced by `getAccountInfo` (lines 373–395); the
`alias` field of the source is called `aliasVal` here because `alias` is a
reserved word. -/
structure AccountInfo where
  account : String
  aliasVal : Option String
  balance : AccountBalance
  createdTimestamp : String
  declineReward : Option Bool
  deleted : Option Bool
  ethereumNonce : Option Int
  evmAddress : Option String
  key : Option String
  maxAutomaticTokenAssociations : Option Int
  memo : Option String
  pendingReward : Option Int
  receiverSigRequired : Option Bool
  stakedAccountId : Option String
  stakedNodeId : Option Int
  stakePeriodStart : Option String
  deriving Repr, DecidableEq

/-- Normalized `BonzoReserve` (camelCase fields; currency-display objects
pass through unchanged). -/
structure BonzoReserve where
  symbol : String
  name : Option String
  active : Bool
  supplyApy : ℚ
  variableBorrowApy : ℚ
  stableBorrowApy : Option ℚ
  utilizationRate : ℚ
  availableLiquidity : UsdAmountRaw
  totalBorrowableLiquidity : Option UsdAmountRaw
  ltv : ℚ
  liquidationThreshold : ℚ
  liquidationBonus : Option ℚ
  variableBorrowingEnabled : Option Bool
  stableBorrowingEnabled : Option Bool
  deriving Repr, DecidableEq

/-- Normalized `BonzoMarketData`. -/
structure BonzoMarketData where
  chainId : String
  networkName : String
  totalMarketSupplied : UsdAmountRaw
  totalMarketBorrowed : UsdAmountRaw
  totalMarketLiquidity : UsdAmountRaw
  totalMarketReserve : UsdAmountRaw
  reserves : List BonzoReserve
  timestamp : String
  deriving Repr, DecidableEq

/-- Summary object returned by `getBonzoTotalMarkets` (lines 555–565). -/
structure BonzoTotals where
  chainId : String
  networkName : String
  totalMarketSupplied : UsdAmountRaw
  totalMarketBorrowed : UsdAmountRaw
  totalMarketLiquidity : UsdAmountRaw
  totalMarketReserve : UsdAmountRaw
  timestamp : String
  totalReserves : Nat
  deriving Repr, DecidableEq

/-! ## Normalization and public methods -/

/-- View an executor result as a `network/supply` body: a wrong-shaped or
empty-sentinel payload reads every field as `undefined`, exactly as property
access on the empty object does in JavaScript. -/
def asSupply (data : Option Payload) : SupplyRaw :=
  match data with
  | some (Payload.supply d) => d
  | _ => ⟨none, none, none⟩

/-- View an executor result as a `network/exchangerate` body. -/
def asRate (data : Option Payload) : RateRaw :=
  match data with
  | some (Payload.rate d) => d
  | _ => ⟨none, none, none⟩

/-- View an executor result as an `accounts/\x7bid\x7d` body. -/
def asAccount (data : Option Payload) : AccountRaw :=
  match data with
  | some (Payload.account d) => d
  | _ =>
    { account := none, aliasVal := none, balance := none,
      created_timestamp := none, decline_reward := none, deleted := none,
      ethereum_nonce := none, evm_address := none, key := none,
      max_automatic_token_associations := none, memo := none,
      pending_reward := none, receiver_sig_required := none,
      staked_account_id := none, staked_node_id := none,
      stake_period_start := none }

/-- View an executor result as a Bonzo `Market` body. -/
def asBonzo (data : Option Payload) : BonzoRawMarket :=
  match data with
  | some (Payload.bonzo d) => d
  | _ =>
    { chain_id := none, chainId := none, network_name := none,
      networkName := none, total_market_supplied := none,
      totalMarketSupplied := none, total_market_borrowed := none,
      totalMarketBorrowed := none, total_market_liquidity := none,
      totalMarketLiquidity := none, total_market_reserve := none,
      totalMarketReserve := none, reserves := none, timestamp := none }

/-- The normalization performed by `getNetworkSupply` (lines 294–299):
`parseInt(field || "0") / 100_000_000` for both supplies and
`parseTimestamp(timestamp) || new Date()` for the timestamp. -/
def normalizeNetworkSupply (now : Int) (d : SupplyRaw) : NetworkSupply :=
  { totalSupply :=
      (jsParseInt (jsStrOr d.total_supply "0")).map (fun n => (n : ℚ) / 100000000)
    circulatingSupply :=
      (jsParseInt (jsStrOr d.released_supply "0")).map (fun n => (n : ℚ) / 100000000)
    timestamp := (parseTimestamp d.timestamp).getD now }

/-- `getNetworkSupply` (lines 290–307): track the call, run the mirror-node
executor for `network/supply`, and normalize.  The executor always yields an
object (the empty sentinel included), so the normalizing branch is always
taken. -/
def getNetworkSupply (env : Env) (st : ClientState) :
    Except String NetworkSupply × ClientState :=
  match request env { st with callCounts := trackCall st.callCounts "getNetworkSupply" }
      "network/supply" "\x7b\x7d" with
  | Except.error e =>
    (Except.error e, { st with callCounts := trackCall st.callCounts "getNetworkSupply" })
  | Except.ok (data, st2) =>
    (Except.ok (normalizeNetworkSupply env.now (asSupply data)), st2)

/-- Normalize one raw rate object (lines 339–343 and 348–352). -/
def normalizeRateEntry (e : RateRawEntry) : RateInfo :=
  { centEquiv := jsNumOr e.cent_equiv 0
    hbarEquiv := jsNumOr e.hbar_equiv 0
    expirationTime := jsStrOr e.expiration_time "" }

/-- `getNetworkExchangeRate` (lines 334–359): run the executor for
`network/exchangerate` — without tracking the call; the method has no
`trackCall` — and build the result only when `data.current_rate` is present,
returning `undefined` (`none`) otherwise. -/
def getNetworkExchangeRate (env : Env) (st : ClientState) :
    Except String (Option NetworkExchangeRate) × ClientState :=
  match request env st "network/exchangerate" "\x7b\x7d" with
  | Except.error e => (Except.error e, st)
  | Except.ok (data, st2) =>
    let d := asRate data
    match d.current_rate with
    | some cr =>
      (Except.ok (some
        { currentRate := normalizeRateEntry cr
          nextRate := d.next_rate.map normalizeRateEntry
          timestamp := (parseTimestamp d.timestamp).getD env.now }), st2)
    | none => (Except.ok none, st2)

/-- The normalization performed by `getAccountInfo` (lines 373–395). -/
def normalizeAccountInfo (accountId : String) (d : AccountRaw) : AccountInfo :=
  { account := jsStrOr d.account accountId
    aliasVal := d.aliasVal
    balance :=
      { balance := jsParseInt (jsStrOr (d.balance.bind (fun b => b.balance)) "0")
        timestamp := jsStrOr (d.balance.bind (fun b => b.timestamp)) "" }
    createdTimestamp := jsStrOr d.created_timestamp ""
    declineReward := d.decline_reward
    deleted := d.deleted
    ethereumNonce := d.ethereum_nonce
    evmAddress := d.evm_address
    key := d.key
    maxAutomaticTokenAssociations := d.max_automatic_token_associations
    memo := d.memo
    pendingReward := d.pending_reward
    receiverSigRequired := d.receiver_sig_required
    stakedAccountId := d.staked_account_id
    stakedNodeId := d.staked_node_id
    stakePeriodStart := d.stake_period_start }

/-- `getAccountInfo` (lines 366–398): reject an identifier failing
`validateAccountId` synchronously with `"Invalid account ID format: ..."`
before touching the executor; otherwise fetch `accounts/` ++ id and
normalize.  The executor result is always an object, so the method returns
a record whenever validation passes. -/
def getAccountInfo (env : Env) (st : ClientState) (accountId : String) :
    Except String (Option AccountInfo) × ClientState :=
  if validateAccountId accountId then
    match request env st ("accounts/" ++ accountId) "\x7b\x7d" with
    | Except.error e => (Except.error e, st)
    | Except.ok (data, st2) =>
      (Except.ok (some (normalizeAccountInfo accountId (asAccount data))), st2)
  else
    (Except.error ("Invalid account ID format: " ++ accountId), st)

/-- Normalize one raw Bonzo reserve (lines 516–531), with JavaScript `||`
semantics for each snake_case/camelCase fallback chain. -/
def normalizeBonzoReserve (r : BonzoRawReserve) : BonzoReserve :=
  { symbol := jsStrOr r.symbol ""
    name := r.name
    active := jsBoolOr r.active false
    supplyApy := jsNumOr r.supply_apy (jsNumOr r.supplyApy 0)
    variableBorrowApy := jsNumOr r.variable_borrow_apy (jsNumOr r.variableBorrowApy 0)
    stableBorrowApy := jsNumOrOpt r.stable_borrow_apy r.stableBorrowApy
    utilizationRate := jsNumOr r.utilization_rate (jsNumOr r.utilizationRate 0)
    availableLiquidity :=
      (jsObjOr r.available_liquidity r.availableLiquidity).getD ⟨none, some "0"⟩
    totalBorrowableLiquidity :=
      jsObjOr r.total_borrowable_liquidity r.totalBorrowableLiquidity
    ltv := jsNumOr r.ltv 0
    liquidationThreshold :=
      jsNumOr r.liquidation_threshold (jsNumOr r.liquidationThreshold 0)
    liquidationBonus := jsNumOrOpt r.liquidation_bonus r.liquidationBonus
    variableBorrowingEnabled :=
      jsBoolOrOpt r.variable_borrowing_enabled r.variableBorrowingEnabled
    stableBorrowingEnabled :=
      jsBoolOrOpt r.stable_borrowing_enabled r.stableBorrowingEnabled }

/-- The snake_case → camelCase mapping performed by `getBonzoMarkets`
(lines 509–533); `nowIso` stands for `new Date().toISOString()`. -/
def normalizeBonzoMarket (nowIso : String) (m : BonzoRawMarket) : BonzoMarketData :=
  { chainId := jsStrOr m.chain_id (jsStrOr m.chainId "")
    networkName := jsStrOr m.network_name (jsStrOr m.networkName "")
    totalMarketSupplied :=
      (jsObjOr m.total_market_supplied m.totalMarketSupplied).getD ⟨none, some "0"⟩
    totalMarketBorrowed :=
      (jsObjOr m.total_market_borrowed m.totalMarketBorrowed).getD ⟨none, some "0"⟩
    totalMarketLiquidity :=
      (jsObjOr m.total_market_liquidity m.totalMarketLiquidity).getD ⟨none, some "0"⟩
    totalMarketReserve :=
      (jsObjOr m.total_market_reserve m.totalMarketReserve).getD ⟨none, some "0"⟩
    reserves := (m.reserves.getD []).map normalizeBonzoReserve
    timestamp := jsStrOr m.timestamp nowIso }

/-- `getBonzoMarkets` (lines 497–539): track the call, run the Bonzo
executor for `Market`, and map the body.  The body (sentinel included) is
always an object, so the mapping branch is always taken and the method never
returns `undefined` here. -/
def getBonzoMarkets (env : Env) (st : ClientState) :
    Option BonzoMarketData × ClientState :=
  let st1 := { st with callCounts := trackCall st.callCounts "getBonzoMarkets" }
  let res := bonzoRequest env st1 "Market"
  (some (normalizeBonzoMarket env.nowIso (asBonzo res.1)), res.2)

/-- `getBonzoReserves` (lines 544–547): `cachedData || await
this.getBonzoMarkets()` — a provided market-data object is always truthy, so
it is used as-is with no fetch. -/
def getBonzoReserves (env : Env) (st : ClientState)
    (cachedData : Option BonzoMarketData) : List BonzoReserve × ClientState :=
  match cachedData with
  | some d => (d.reserves, st)
  | none =>
    let res := getBonzoMarkets env st
    (match res.1 with
     | some d => d.reserves
     | none => [], res.2)

/-- Build the summary object of `getBonzoTotalMarkets` (lines 556–565). -/
def bonzoTotalsOf (d : BonzoMarketData) : BonzoTotals :=
  { chainId := d.chainId
    networkName := d.networkName
    totalMarketSupplied := d.totalMarketSupplied
    totalMarketBorrowed := d.totalMarketBorrowed
    totalMarketLiquidity := d.totalMarketLiquidity
    totalMarketReserve := d.totalMarketReserve
    timestamp := d.timestamp
    totalReserves := d.reserves.length }

/-- `getBonzoTotalMarkets` (lines 552–569): like `getBonzoReserves`, using
the provided market data when present and returning the empty object
(`none`) only when no data is available. -/
def getBonzoTotalMarkets (env : Env) (st : ClientState)
    (cachedData : Option BonzoMarketData) : Option BonzoTotals × ClientState :=
  match cachedData with
  | some d => (some (bonzoTotalsOf d), st)
  | none =>
    let res := getBonzoMarkets env st
    (res.1.map bonzoTotalsOf, res.2)

/-- The `totalLiquidityUsd` and `protocolDistribution` computation of
`getCrossProtocolLiquiditySummary` (lines 652–676), as a function of the two
constituent TVLs (`saucerTvl = saucerStats.tvlUsd || 0`,
`bonzoTvl = parseUsdValue(...)`). -/
structure CrossProtocolDistribution where
  totalLiquidityUsd : ℚ
  dexPercentage : ℚ
  lendingPercentage : ℚ
  deriving Repr, DecidableEq

/-- Lines 660 and 673–676 of `getCrossProtocolLiquiditySummary`:
`totalLiquidityUsd = saucerTvl + bonzoTvl` with zero-guarded distribution
percentages. -/
def crossProtocolDistribution (saucerTvl bonzoTvl : ℚ) : CrossProtocolDistribution :=
  { totalLiquidityUsd := saucerTvl + bonzoTvl
    dexPercentage :=
      if 0 < saucerTvl + bonzoTvl then saucerTvl / (saucerTvl + bonzoTvl) * 100 else 0
    lendingPercentage :=
      if 0 < saucerTvl + bonzoTvl then bonzoTvl / (saucerTvl + bonzoTvl) * 100 else 0 }

/-! ## Iterated invocation helpers (used to state the call-count claims) -/

/-- Invoke `getNetworkSupply` `n` times in sequence, threading the client
state. -/
def iterateNetworkSupply (env : Env) : Nat → ClientState → ClientState
  | 0, st => st
  | n + 1, st => iterateNetworkSupply env n (getNetworkSupply env st).2

/-- Invoke `getNetworkExchangeRate` `n` times in sequence, threading the
client state. -/
def iterateExchangeRate (env : Env) : Nat → ClientState → ClientState
  | 0, st => st
  | n + 1, st => iterateExchangeRate env n (getNetworkExchangeRate env st).2

/-- A fresh client state: empty cache, all counts zero, no requests
issued. -/
def initialState : ClientState :=
  { cache := [], callCounts := fun _ => 0, netRequests := [] }

/-- A concrete environment whose every transport fails. -/
def envFail : Env :=
  { netMirror := fun _ => none, netBonzo := fun _ => none,
    netSaucer := fun _ => none, now := 0, nowIso := "1970-01-01T00:00:00.000Z",
    cacheTtl := 60 }

/-! ## Theorems settling the claims -/

/-- Helper: looking up the key just stored by `cachePut` yields the stored
entry. -/
theorem lookup_cachePut_self (cache : List (String × CacheEntry)) (key : String)
    (payload : Payload) (t : Int) :
    (cachePut cache key payload t).lookup key = some ⟨payload, t⟩ := by
  simp [cachePut, List.lookup]

/-- C1: after `cachePut`, `cacheGet` returns exactly the stored payload while
`now - fetchedAt < ttl` (in the source: `cacheTtl * 1000` milliseconds), and
returns `none` once `now - fetchedAt ≥ ttl` even though the entry is still
present in the map; in particular a lookup at `fetchedAt + ttl - ε` is a hit
and at `fetchedAt + ttl + ε` is a miss. -/
theorem cache_put_get_ttl (cache : List (String × CacheEntry)) (key : String)
    (payload : Payload) (fetchedAt ttl now eps : Int) :
    (now - fetchedAt < ttl * 1000 →
      cacheGet (cachePut cache key payload fetchedAt) ttl now key = some payload) ∧
    (ttl * 1000 ≤ now - fetchedAt →
      cacheGet (cachePut cache key payload fetchedAt) ttl now key = none ∧
      (cachePut cache key payload fetchedAt).lookup key = some ⟨payload, fetchedAt⟩) ∧
    (0 < eps →
      cacheGet (cachePut cache key payload fetchedAt) ttl
        (fetchedAt + ttl * 1000 - eps) key = some payload) ∧
    (0 ≤ eps →
      cacheGet (cachePut cache key payload fetchedAt) ttl
        (fetchedAt + ttl * 1000 + eps) key = none) := by
  have hl := lookup_cachePut_self cache key payload fetchedAt
  refine ⟨fun h => ?_, fun h => ⟨?_, hl⟩, fun h => ?_, fun h => ?_⟩ <;>
    simp only [cacheGet, hl] <;>
    [rw [if_pos h]; rw [if_neg (by omega)]; rw [if_pos (by omega)]; rw [if_neg (by omega)]]

/-- C1 witness: a concrete put/get at TTL 60 s — a hit 1 ms before expiry, a
miss 1 ms after, with the entry still stored. -/
theorem cache_put_get_ttl_witness :
    cacheGet (cachePut [] "k" (Payload.supply ⟨none, none, none⟩) 0) 60 59999 "k"
      = some (Payload.supply ⟨none, none, none⟩) ∧
    cacheGet (cachePut [] "k" (Payload.supply ⟨none, none, none⟩) 0) 60 60001 "k"
      = none ∧
    (cachePut [] "k" (Payload.supply ⟨none, none, none⟩) 0).lookup "k"
      = some ⟨Payload.supply ⟨none, none, none⟩, 0⟩ := by
  have h1 := cache_put_get_ttl [] "k" (Payload.supply ⟨none, none, none⟩) 0 60 59999 1
  have h2 := cache_put_get_ttl [] "k" (Payload.supply ⟨none, none, none⟩) 0 60 60001 1
  exact ⟨h1.1 (by norm_num), (h2.2.1 (by norm_num)).1, (h2.2.1 (by norm_num)).2⟩

/-- C3: in the record built by `getCrossProtocolLiquiditySummary`, whenever
`dexTvl + lendingTvl > 0` the two distribution percentages are
`dexTvl/total*100` and `lendingTvl/total*100` and sum to exactly 100, and
when both TVLs are 0 the total liquidity and both percentages are exactly 0
(never `NaN`). -/
theorem crossProtocol_distribution_invariant (dexTvl lendingTvl : ℚ) :
    (0 < dexTvl + lendingTvl →
      (crossProtocolDistribution dexTvl lendingTvl).dexPercentage =
        dexTvl / (dexTvl + lendingTvl) * 100 ∧
      (crossProtocolDistribution dexTvl lendingTvl).lendingPercentage =
        lendingTvl / (dexTvl + lendingTvl) * 100 ∧
      (crossProtocolDistribution dexTvl lendingTvl).dexPercentage +
        (crossProtocolDistribution dexTvl lendingTvl).lendingPercentage = 100) ∧
    (dexTvl = 0 → lendingTvl = 0 →
      (crossProtocolDistribution dexTvl lendingTvl).totalLiquidityUsd = 0 ∧
      (crossProtocolDistribution dexTvl lendingTvl).dexPercentage = 0 ∧
      (crossProtocolDistribution dexTvl lendingTvl).lendingPercentage = 0) := by
  constructor
  · intro h
    have hne : dexTvl + lendingTvl ≠ 0 := ne_of_gt h
    refine ⟨?_, ?_, ?_⟩ <;> simp only [crossProtocolDistribution, if_pos h]
    field_simp
    ring
  · intro h1 h2
    subst h1; subst h2
    simp [crossProtocolDistribution]

/-- C3 witness: concrete instances — TVLs 30 and 70 give 30 % and 70 %
summing to 100; TVLs 0 and 0 give total 0 and 0 % shares. -/
theorem crossProtocol_distribution_invariant_witness :
    (0 : ℚ) < 30 + 70 ∧
    (crossProtocolDistribution 30 70).dexPercentage +
      (crossProtocolDistribution 30 70).lendingPercentage = 100 ∧
    (crossProtocolDistribution 0 0).totalLiquidityUsd = 0 ∧
    (crossProtocolDistribution 0 0).dexPercentage = 0 ∧
    (crossProtocolDistribution 0 0).lendingPercentage = 0 := by
  have h1 := (crossProtocol_distribution_invariant 30 70).1 (by norm_num)
  have h2 := (crossProtocol_distribution_invariant 0 0).2 rfl rfl
  exact ⟨by norm_num, h1.2.2, h2.1, h2.2.1, h2.2.2⟩

/-- C6 (code bug): `parseUsdValue` strips `$` and `,` and parses a decimal —
`"$1,234,567.89"` yields `1234567.89` and `""`/`"0"` yield `0` — but an
input with no numeric prefix after stripping, such as `"abc"`, yields `NaN`,
not `0`: `parseFloat` never throws, so the `catch` branch that would return
`0` is unreachable. -/
theorem parseUsdValue_eval :
    parseUsdValue "abc" = JsFloat.nan ∧
    parseUsdValue "$1,234,567.89" = JsFloat.val (123456789 / 100) ∧
    parseUsdValue "" = JsFloat.val 0 ∧
    parseUsdValue "0" = JsFloat.val 0 := by
  refine ⟨by decide, ?_, by decide, by decide⟩
  have hstrip :
      String.mk ("$1,234,567.89".data.filter (fun c => !(c = '$' || c = ','))) =
        "1234567.89" := by decide
  have hsyn : jsParseFloatSyntax "1234567.89" =
      FloatSyntax.finite false ['1', '2', '3', '4', '5', '6', '7'] ['8', '9'] 0 := by
    decide
  have hi : digitsVal ['1', '2', '3', '4', '5', '6', '7'] = 1234567 := by decide
  have hf : digitsVal ['8', '9'] = 89 := by decide
  rw [parseUsdValue, if_neg (by decide), hstrip]
  simp only [jsParseFloat, hsyn, floatSyntaxValue, hi, hf]
  norm_num

/-- C9: `clearCache` empties only the request cache, leaving the call counts
(and the request log) unchanged; `resetCallCounts` removes only the call
counts, leaving every cache entry (and the request log) unchanged. -/
theorem clearCache_resetCallCounts_frame (st : ClientState) :
    (clearCache st).callCounts = st.callCounts ∧
    (clearCache st).cache = [] ∧
    (clearCache st).netRequests = st.netRequests ∧
    (resetCallCounts st).cache = st.cache ∧
    (resetCallCounts st).callCounts = (fun _ => 0) ∧
    (resetCallCounts st).netRequests = st.netRequests :=
  ⟨rfl, rfl, rfl, rfl, rfl, rfl⟩

/-- C10: with a provided `cachedData` argument, `getBonzoReserves` and
`getBonzoTotalMarkets` return results derived solely from that argument and
leave the client state (cache, call counts, request log) completely
unchanged — no network request is issued. -/
theorem bonzo_cachedData_pure (env : Env) (st : ClientState) (d : BonzoMarketData) :
    getBonzoReserves env st (some d) = (d.reserves, st) ∧
    getBonzoTotalMarkets env st (some d) = (some (bonzoTotalsOf d), st) :=
  ⟨rfl, rfl⟩

/-- Helper: the mirror-node executor never touches the call counts. -/
theorem requestRun_callCounts (env : Env) (st : ClientState) (path params : String) :
    ((requestRun env st path params).2).callCounts = st.callCounts := by
  unfold requestRun
  split
  · rfl
  · split <;> rfl

/-- Helper: executor behaviour on a cache miss with a failing transport. -/
theorem requestRun_fail (env : Env) (st : ClientState) (path params : String)
    (hnet : env.netMirror path = none)
    (hmiss : cacheGet st.cache env.cacheTtl env.now (path ++ ":" ++ params) = none) :
    requestRun env st path params =
      (none, { st with netRequests := st.netRequests ++ [path] }) := by
  unfold requestRun
  simp [hmiss, hnet]

/-- Helper: executor behaviour on a cache miss with a succeeding
transport. -/
theorem requestRun_net (env : Env) (st : ClientState) (path params : String)
    (p : Payload)
    (hnet : env.netMirror path = some p)
    (hmiss : cacheGet st.cache env.cacheTtl env.now (path ++ ":" ++ params) = none) :
    requestRun env st path params =
      (some p,
        { st with
          netRequests := st.netRequests ++ [path]
          cache := cachePut st.cache (path ++ ":" ++ params) p env.now }) := by
  unfold requestRun
  simp [hmiss, hnet]

/-- C2: when every underlying mirror-node request fails and no fresh cached
value exists, `getNetworkSupply` does not raise: it returns the default
record with zero supplies and the current instant as timestamp. -/
theorem getNetworkSupply_fail_open (env : Env) (st : ClientState)
    (hnet : ∀ p, env.netMirror p = none)
    (hmiss : cacheGet st.cache env.cacheTtl env.now "network/supply:\x7b\x7d" = none) :
    (getNetworkSupply env st).1 =
      Except.ok
        { totalSupply := some 0, circulatingSupply := some 0,
          timestamp := env.now } := by
  have hr := requestRun_fail env
    { st with callCounts := trackCall st.callCounts "getNetworkSupply" }
    "network/supply" "\x7b\x7d" (hnet _) hmiss
  unfold getNetworkSupply request
  rw [if_neg (by decide), hr]
  simp only [asSupply, normalizeNetworkSupply, jsStrOr, parseTimestamp, Option.getD]
  norm_num [show jsParseInt "0" = some 0 from by decide]

/-- C2 witness: with the always-failing transport and a fresh client,
`getNetworkSupply` succeeds with the all-zero default record. -/
theorem getNetworkSupply_fail_open_witness :
    (getNetworkSupply envFail initialState).1 =
      Except.ok { totalSupply := some 0, circulatingSupply := some 0, timestamp := 0 } :=
  getNetworkSupply_fail_open envFail initialState (fun _ => rfl) rfl

/-- C8: a `network/supply` body whose `total_supply` is
`"5000000000000000"` (smallest units) normalizes to a `NetworkSupply` whose
`totalSupply` is `50000000` display units — division by the fixed constant
10^8. -/
theorem getNetworkSupply_unit_conversion (env : Env) (st : ClientState)
    (rs ts : Option String)
    (hnet : env.netMirror "network/supply" =
      some (Payload.supply ⟨some "5000000000000000", rs, ts⟩))
    (hmiss : cacheGet st.cache env.cacheTtl env.now "network/supply:\x7b\x7d" = none) :
    ∃ ns, (getNetworkSupply env st).1 = Except.ok ns ∧ ns.totalSupply = some 50000000 := by
  have hr := requestRun_net env
    { st with callCounts := trackCall st.callCounts "getNetworkSupply" }
    "network/supply" "\x7b\x7d" (Payload.supply ⟨some "5000000000000000", rs, ts⟩)
    hnet hmiss
  unfold getNetworkSupply request
  rw [if_neg (by decide), hr]
  refine ⟨_, rfl, ?_⟩
  simp only [asSupply, normalizeNetworkSupply, jsStrOr]
  rw [if_neg (by decide)]
  rw [show jsParseInt "5000000000000000" = some 5000000000000000 from by decide]
  norm_num

/-- A concrete environment whose mirror transport always returns the C8
supply payload. -/
def envSupply : Env :=
  { envFail with
    netMirror := fun _ => some (Payload.supply ⟨some "5000000000000000", none, none⟩) }

/-- C8 witness: the conversion evaluated on a fresh client against the
concrete supply payload. -/
theorem getNetworkSupply_unit_conversion_witness :
    ∃ ns, (getNetworkSupply envSupply initialState).1 = Except.ok ns ∧
      ns.totalSupply = some 50000000 :=
  getNetworkSupply_unit_conversion envSupply initialState none none rfl rfl

/-- C7: a malformed account identifier makes `getAccountInfo` raise the
validation error synchronously with the client state untouched: no request
is issued, nothing is cached, no count changes, and no retry occurs. -/
theorem getAccountInfo_invalid_sync_error (env : Env) (st : ClientState)
    (accountId : String) (h : validateAccountId accountId = false) :
    getAccountInfo env st accountId =
      (Except.error ("Invalid account ID format: " ++ accountId), st) := by
  simp only [getAccountInfo]
  rw [if_neg (by simp [h])]

/-- C7 witness: `getAccountInfo "not-an-id"` on a fresh client returns the
validation error and the unchanged initial state. -/
theorem getAccountInfo_invalid_sync_error_witness :
    getAccountInfo envFail initialState "not-an-id" =
      (Except.error "Invalid account ID format: not-an-id", initialState) :=
  getAccountInfo_invalid_sync_error envFail initialState "not-an-id" (by decide)

/-- C4 counterexample: `"1.2.3"` is of the form `shard.realm.num` yet the
validator rejects it and `getAccountInfo` raises the validation error — the
claim that every `shard.realm.num` identifier is accepted is false. -/
theorem validateAccountId_shard_realm_cex :
    validateAccountId "1.2.3" = false ∧
    getAccountInfo envFail initialState "1.2.3" =
      (Except.error "Invalid account ID format: 1.2.3", initialState) := by
  refine ⟨by decide, ?_⟩
  simp only [getAccountInfo]
  rw [if_neg (by decide)]
  rfl

/-- C4 (amended): the validator accepts exactly the identifiers of the form
`0.0.num` (the literal prefix `0.0.` followed by one or more decimal
digits), and `getAccountInfo` does not raise a validation error on those;
every other string — including other `shard.realm.num` identifiers — is
rejected as malformed. -/
theorem validateAccountId_zero_zero_only (ds : List Char) (env : Env) (st : ClientState)
    (h1 : ds ≠ []) (h2 : ds.all Char.isDigit = true) :
    validateAccountId (String.mk ('0' :: '.' :: '0' :: '.' :: ds)) = true ∧
    (∃ info st2,
      getAccountInfo env st (String.mk ('0' :: '.' :: '0' :: '.' :: ds)) =
        (Except.ok (some info), st2)) ∧
    (∀ s : String, validateAccountId s = true →
      ∃ ds2, ds2 ≠ [] ∧ ds2.all Char.isDigit = true ∧
        s.data = '0' :: '.' :: '0' :: '.' :: ds2) := by
  have hemp : ds.isEmpty = false := by
    cases ds
    · exact absurd rfl h1
    · rfl
  have hval : validateAccountId (String.mk ('0' :: '.' :: '0' :: '.' :: ds)) = true := by
    simp [validateAccountId, hemp, h2]
  refine ⟨hval, ?_, ?_⟩
  · have hne : ("accounts/" ++ String.mk ('0' :: '.' :: '0' :: '.' :: ds)) ≠ "" := by
      intro h
      have hd := congrArg String.data h
      simp only [String.data_append] at hd
      exact absurd (List.append_eq_nil.mp hd).1 (by decide)
    simp only [getAccountInfo]
    rw [if_pos hval]
    simp only [request]
    rw [if_neg hne]
    exact ⟨_, _, rfl⟩
  · intro s hv
    obtain ⟨l⟩ := s
    rcases l with _ | ⟨c1, _ | ⟨c2, _ | ⟨c3, _ | ⟨c4, rest⟩⟩⟩⟩
    · simp [validateAccountId] at hv
    · simp [validateAccountId] at hv
    · simp [validateAccountId] at hv
    · simp [validateAccountId] at hv
    · simp only [validateAccountId, Bool.and_eq_true, beq_iff_eq,
        Bool.not_eq_true'] at hv
      obtain ⟨⟨⟨⟨⟨e1, e2⟩, e3⟩, e4⟩, he⟩, hall⟩ := hv
      subst e1; subst e2; subst e3; subst e4
      refine ⟨rest, ?_, hall, rfl⟩
      intro hr
      rw [hr] at he
      simp at he

/-- C4 witness: the concrete identifier `0.0.123456` is accepted and
`getAccountInfo` succeeds on it. -/
theorem validateAccountId_zero_zero_only_witness :
    validateAccountId "0.0.123456" = true ∧
    (∃ info st2, getAccountInfo envFail initialState "0.0.123456" =
      (Except.ok (some info), st2)) := by
  have h := validateAccountId_zero_zero_only ['1', '2', '3', '4', '5', '6']
    envFail initialState (by decide) (by decide)
  exact ⟨h.1, h.2.1⟩

/-- Helper: `getNetworkSupply` changes the call counts by exactly one
`trackCall` of its own name, whether the request is a cache hit or a
miss. -/
theorem getNetworkSupply_callCounts (env : Env) (st : ClientState) :
    ((getNetworkSupply env st).2).callCounts = trackCall st.callCounts "getNetworkSupply" := by
  have h := requestRun_callCounts env
    { st with callCounts := trackCall st.callCounts "getNetworkSupply" }
    "network/supply" "\x7b\x7d"
  unfold getNetworkSupply request
  rw [if_neg (by decide)]
  rcases hr : requestRun env
    { st with callCounts := trackCall st.callCounts "getNetworkSupply" }
    "network/supply" "\x7b\x7d" with ⟨data, st2⟩
  rw [hr] at h
  simpa [hr] using h

/-- Helper: `getNetworkExchangeRate` never touches the call counts (it has
no `trackCall`). -/
theorem getNetworkExchangeRate_callCounts (env : Env) (st : ClientState) :
    ((getNetworkExchangeRate env st).2).callCounts = st.callCounts := by
  have h := requestRun_callCounts env st "network/exchangerate" "\x7b\x7d"
  unfold getNetworkExchangeRate request
  rw [if_neg (by decide)]
  rcases hr : requestRun env st "network/exchangerate" "\x7b\x7d" with ⟨data, st2⟩
  rw [hr] at h
  cases hcr : (asRate data).current_rate <;> simpa [hr, hcr] using h

/-- C5 (amended): every invocation of a method that calls `trackCall`
increments its recorded count by exactly one regardless of cache hit or
miss — so `n` invocations of `getNetworkSupply` add `n` to
`callCounts["getNetworkSupply"]`, and three invocations on a fresh client
yield 3 — but not every public accessor is tracked: `getNetworkExchangeRate`
contains no `trackCall` and leaves the call counts completely unchanged. -/
theorem callCount_tracking_amended :
    (∀ (env : Env) (n : Nat) (st : ClientState),
      (iterateNetworkSupply env n st).callCounts "getNetworkSupply" =
        st.callCounts "getNetworkSupply" + n) ∧
    (∀ (env : Env) (st : ClientState),
      ((getNetworkExchangeRate env st).2).callCounts = st.callCounts) := by
  constructor
  · intro env n
    induction n with
    | zero => intro st; simp [iterateNetworkSupply]
    | succ m ih =>
      intro st
      have hstep := getNetworkSupply_callCounts env st
      calc (iterateNetworkSupply env (m + 1) st).callCounts "getNetworkSupply"
          = (iterateNetworkSupply env m (getNetworkSupply env st).2).callCounts
              "getNetworkSupply" := rfl
        _ = ((getNetworkSupply env st).2).callCounts "getNetworkSupply" + m := ih _
        _ = st.callCounts "getNetworkSupply" + 1 + m := by
              rw [hstep]; simp [trackCall]
        _ = st.callCounts "getNetworkSupply" + (m + 1) := by omega
  · exact getNetworkExchangeRate_callCounts

/-- C5 counterexample: three invocations of the public accessor
`getNetworkExchangeRate` leave its recorded call count at 0, not 3 — the
claim that every public method is counted is false. -/
theorem getNetworkExchangeRate_untracked_cex :
    (iterateExchangeRate envFail 3 initialState).callCounts "getNetworkExchangeRate" ≠ 3 := by
  have h : (iterateExchangeRate envFail 3 initialState).callCounts
      "getNetworkExchangeRate" = 0 := rfl
  rw [h]
  omega

end HederaDefi
